import Mathlib

/-!
Verification of the adaptive recommendation and feedback-aggregation core of the
MultiAgent study platform.  The Python source is shallowly embedded: Python
floats are modelled as rationals (`ℚ`), Python dicts as insertion-ordered
association lists, raised exceptions as `Except`/`Option`, and the wall clock
and the random sampler as explicit parameters.  Each definition is translated
from the corresponding function of the repository (file and line references in
the doc comments).
-/

namespace StudyPlatform

/-- ASCII lowercase of one character, modelling Python `str.lower()` on the
ASCII strings (mode names, chunk references) this code handles. -/
def lowerChar (c : Char) : Char :=
  if 'A' ≤ c ∧ c ≤ 'Z' then Char.ofNat (c.toNat + 32) else c

/-- Python `s.lower()` for ASCII strings. -/
def pyLower (s : String) : String := String.mk (s.data.map lowerChar)

/-- Lookup in an insertion-ordered association list (Python `d.get(k)`). -/
def alGet (m : List (String × α)) (k : String) : Option α :=
  (m.find? (fun p => p.1 == k)).map (fun p => p.2)

/-- Python `d.get(k, default)`. -/
def alGetD (m : List (String × α)) (k : String) (d : α) : α :=
  (alGet m k).getD d

/-- Python `k in d`. -/
def alHas (m : List (String × α)) (k : String) : Bool :=
  m.any (fun p => p.1 == k)

/-- Python `d[k] = v`: overwrite the existing entry, or append a new one at the
end (dicts preserve insertion order). -/
def alSet (m : List (String × α)) (k : String) (v : α) : List (String × α) :=
  match m with
  | [] => [(k, v)]
  | p :: ps => if p.1 == k then (k, v) :: ps else p :: alSet ps k v

/-- One entry of `RLState.mode_history`
(src/agents/rl_agent.py, `update_from_feedback`, lines 71-76). -/
structure HistEntry where
  mode : String
  feedback : ℚ
  timestamp : String
  session_id : Option String
deriving DecidableEq, Repr

/-- One entry of the bounded per-chunk recent-question list
(src/core/analytics.py, `record_quiz_answer`, lines 58-62). -/
structure ChunkQA where
  question : String
  correct : Bool
  timestamp : String
deriving DecidableEq, Repr

/-- Per-chunk performance record
(src/core/analytics.py, `record_quiz_answer`, lines 38-45). -/
structure ChunkPerf where
  correct : ℤ
  incorrect : ℤ
  attempts : ℤ
  last_attempt : Option String
  source_reference : String
  questions : List ChunkQA
deriving DecidableEq, Repr

/-- The persisted bandit state, translated from the `RLState` dataclass
(src/core/memory.py, lines 10-33). -/
structure RLState where
  mode_alpha : List (String × ℚ)
  mode_beta : List (String × ℚ)
  mode_history : List HistEntry
  chunk_performance : List (String × ChunkPerf)
  survey_completed : Bool
  initial_preference : Option String
  total_sessions : ℤ
  last_updated : Option String
  file_mapping : List (String × String)
deriving DecidableEq, Repr

/-- The fixed mode set `self.modes` (src/agents/rl_agent.py, line 35). -/
def knownModes : List String := ["quiz", "flashcard", "interactive"]

/-- Freshly initialized default state (src/core/memory.py, lines 104-114). -/
def defaultRLState : RLState :=
  { mode_alpha := [("quiz", 1), ("flashcard", 1), ("interactive", 1)]
    mode_beta := [("quiz", 1), ("flashcard", 1), ("interactive", 1)]
    mode_history := []
    chunk_performance := []
    survey_completed := false
    initial_preference := none
    total_sessions := 0
    last_updated := none
    file_mapping := [] }

/-- `RLUpdateRequest` (src/core/messages.py, lines 61-66). -/
structure RLUpdateRequest where
  mode : String
  feedback : ℚ
  session_id : Option String
deriving DecidableEq, Repr

/-- `RLAgent.update_from_feedback` (src/agents/rl_agent.py, lines 37-93),
with `datetime.now()` passed in as `now` and persistence left to the caller
(the save result does not alter the in-memory state). -/
def update_from_feedback (state : RLState) (request : RLUpdateRequest)
    (now : String) : RLState :=
  let mode := pyLower request.mode
  if mode ∈ knownModes then
    let alpha0 := if alHas state.mode_alpha mode then state.mode_alpha
      else alSet state.mode_alpha mode 1
    let beta0 := if alHas state.mode_beta mode then state.mode_beta
      else alSet state.mode_beta mode 1
    let feedback := max 0 (min 1 request.feedback)
    let alpha1 := if 1/2 < feedback then
        alSet alpha0 mode (alGetD alpha0 mode 1 + feedback)
      else alpha0
    let beta1 := if 1/2 < feedback then beta0
      else alSet beta0 mode (alGetD beta0 mode 1 + (1 - feedback))
    let history1 := state.mode_history ++
      [{ mode := mode, feedback := feedback, timestamp := now,
         session_id := request.session_id }]
    let history2 := if 1000 < history1.length then
        history1.drop (history1.length - 1000)
      else history1
    { state with mode_alpha := alpha1, mode_beta := beta1,
                 mode_history := history2, last_updated := some now }
  else state

theorem alGet_alSet_self (m : List (String × α)) (k : String) (v : α) :
    alGet (alSet m k v) k = some v := by
  induction m with
  | nil => simp [alSet, alGet, List.find?]
  | cons p ps ih =>
    by_cases h : p.1 = k
    · simp [alSet, h, alGet, List.find?]
    · have hb : (p.1 == k) = false := by simpa using h
      simp only [alSet, hb, if_false]
      simpa [alGet, List.find?, hb] using ih

theorem c2_update_aux (state : RLState) (mode : String)
    (hmode : mode ∈ knownModes) (hlow : pyLower mode = mode)
    (ha : alHas state.mode_alpha mode = true)
    (hb : alHas state.mode_beta mode = true)
    (f : ℚ) (sid : Option String) (now : String) :
    (1/2 < max 0 (min 1 f) →
      alGet (update_from_feedback state ⟨mode, f, sid⟩ now).mode_alpha mode
          = some (alGetD state.mode_alpha mode 1 + max 0 (min 1 f))
        ∧ (update_from_feedback state ⟨mode, f, sid⟩ now).mode_beta
          = state.mode_beta)
    ∧ (max 0 (min 1 f) ≤ 1/2 →
      alGet (update_from_feedback state ⟨mode, f, sid⟩ now).mode_beta mode
          = some (alGetD state.mode_beta mode 1 + (1 - max 0 (min 1 f)))
        ∧ (update_from_feedback state ⟨mode, f, sid⟩ now).mode_alpha
          = state.mode_alpha) := by
  unfold update_from_feedback
  simp only [hlow, hmode, if_pos, ha, hb, if_true]
  constructor
  · intro hpos
    rw [if_pos hpos, if_pos hpos]
    exact ⟨alGet_alSet_self _ _ _, rfl⟩
  · intro hneg
    rw [if_neg (not_lt.mpr hneg), if_neg (not_lt.mpr hneg)]
    exact ⟨alGet_alSet_self _ _ _, rfl⟩

theorem pyLower_knownMode {mode : String} (hmode : mode ∈ knownModes) :
    pyLower mode = mode := by
  simp only [knownModes, List.mem_cons, List.not_mem_nil, or_false] at hmode
  rcases hmode with rfl | rfl | rfl <;> decide

/-- C2: for every known mode and every feedback value, after clamping to
`[0,1]`: if the clamped value exceeds `0.5` then the update adds exactly that
value to `mode_success` (alpha) and leaves `mode_failure` (beta) unchanged;
otherwise it adds exactly `1 - value` to `mode_failure` and leaves
`mode_success` unchanged.  In particular feedback `1.0` adds `1.0` to alpha
with beta unchanged, feedback `0.0` adds exactly `1.0` to beta, and the
boundary `0.5` adds exactly `0.5` to beta. -/
theorem update_from_feedback_branches (state : RLState) (mode : String)
    (hmode : mode ∈ knownModes)
    (ha : alHas state.mode_alpha mode = true)
    (hb : alHas state.mode_beta mode = true)
    (f : ℚ) (sid : Option String) (now : String) :
    ((1/2 < max 0 (min 1 f) →
      alGet (update_from_feedback state ⟨mode, f, sid⟩ now).mode_alpha mode
          = some (alGetD state.mode_alpha mode 1 + max 0 (min 1 f))
        ∧ (update_from_feedback state ⟨mode, f, sid⟩ now).mode_beta
          = state.mode_beta)
    ∧ (max 0 (min 1 f) ≤ 1/2 →
      alGet (update_from_feedback state ⟨mode, f, sid⟩ now).mode_beta mode
          = some (alGetD state.mode_beta mode 1 + (1 - max 0 (min 1 f)))
        ∧ (update_from_feedback state ⟨mode, f, sid⟩ now).mode_alpha
          = state.mode_alpha))
    ∧ (alGet (update_from_feedback state ⟨mode, 1, sid⟩ now).mode_alpha mode
          = some (alGetD state.mode_alpha mode 1 + 1)
        ∧ (update_from_feedback state ⟨mode, 1, sid⟩ now).mode_beta
          = state.mode_beta)
    ∧ (alGet (update_from_feedback state ⟨mode, 0, sid⟩ now).mode_beta mode
          = some (alGetD state.mode_beta mode 1 + 1)
        ∧ (update_from_feedback state ⟨mode, 0, sid⟩ now).mode_alpha
          = state.mode_alpha)
    ∧ (alGet (update_from_feedback state ⟨mode, 1/2, sid⟩ now).mode_beta mode
          = some (alGetD state.mode_beta mode 1 + (1/2 : ℚ))
        ∧ (update_from_feedback state ⟨mode, 1/2, sid⟩ now).mode_alpha
          = state.mode_alpha) := by
  have hlow := pyLower_knownMode hmode
  refine ⟨c2_update_aux state mode hmode hlow ha hb f sid now, ?_, ?_, ?_⟩
  · have h := (c2_update_aux state mode hmode hlow ha hb 1 sid now).1
    norm_num at h
    exact h
  · have h := (c2_update_aux state mode hmode hlow ha hb 0 sid now).2
    norm_num at h
    exact h
  · have h := (c2_update_aux state mode hmode hlow ha hb (1/2) sid now).2
    norm_num at h
    exact h

/-- Concrete check of C2: starting from the default state, feedback `1.0` on
mode `quiz` moves alpha from `1` to `2` and leaves beta untouched, and the
boundary feedback `0.5` moves beta from `1` to `1.5`. -/
theorem update_from_feedback_branches_witness :
    (alGet (update_from_feedback defaultRLState ⟨"quiz", 1, none⟩ "t").mode_alpha
        "quiz" = some 2
      ∧ (update_from_feedback defaultRLState ⟨"quiz", 1, none⟩ "t").mode_beta
        = defaultRLState.mode_beta)
    ∧ (alGet (update_from_feedback defaultRLState ⟨"quiz", 1/2, none⟩ "t").mode_beta
        "quiz" = some (3/2)
      ∧ (update_from_feedback defaultRLState ⟨"quiz", 1/2, none⟩ "t").mode_alpha
        = defaultRLState.mode_alpha) := by
  have h := update_from_feedback_branches defaultRLState "quiz" (by decide)
    (by decide) (by decide) 1 none "t"
  refine ⟨?_, ?_⟩
  · have h1 := h.2.1
    have : alGetD defaultRLState.mode_alpha "quiz" 1 = 1 := by decide
    rw [this] at h1
    norm_num at h1
    exact h1
  · have h2 := h.2.2.2
    have : alGetD defaultRLState.mode_beta "quiz" 1 = 1 := by decide
    rw [this] at h2
    norm_num at h2
    exact h2

/-- The suffix of the last `n` elements, modelling Python `l[-n:]`
(src/agents/rl_agent.py, line 83). -/
def takeLast (n : ℕ) (l : List α) : List α := l.drop (l.length - n)

/-- The append-then-cap step applied to `mode_history` by one feedback update
(src/agents/rl_agent.py, lines 71-83). -/
def appendCap (h : List HistEntry) (e : HistEntry) : List HistEntry :=
  let h1 := h ++ [e]
  if 1000 < h1.length then h1.drop (h1.length - 1000) else h1

/-- The history entry recorded by `update_from_feedback` for one request
(src/agents/rl_agent.py, lines 71-76). -/
def entryOf (rt : RLUpdateRequest × String) : HistEntry :=
  { mode := pyLower rt.1.mode, feedback := max 0 (min 1 rt.1.feedback),
    timestamp := rt.2, session_id := rt.1.session_id }

/-- A sequence of feedback updates, each with its own clock reading. -/
def run_updates (state : RLState) (reqs : List (RLUpdateRequest × String)) :
    RLState :=
  reqs.foldl (fun s rt => update_from_feedback s rt.1 rt.2) state

theorem takeLast_length_le (n : ℕ) (l : List α) : (takeLast n l).length ≤ n := by
  simp only [takeLast, List.length_drop]
  omega

theorem appendCap_eq_takeLast (h : List HistEntry) (e : HistEntry) :
    appendCap h e = takeLast 1000 (h ++ [e]) := by
  show (if 1000 < (h ++ [e]).length then
      (h ++ [e]).drop ((h ++ [e]).length - 1000) else h ++ [e])
    = takeLast 1000 (h ++ [e])
  unfold takeLast
  split
  · rfl
  · next hle =>
    have : (h ++ [e]).length - 1000 = 0 := by omega
    rw [this, List.drop_zero]

theorem takeLast_append_drop (n i : ℕ) (l m : List α) (hi : i ≤ l.length - n) :
    takeLast n (l.drop i ++ m) = takeLast n (l ++ m) := by
  unfold takeLast
  have hil : i ≤ l.length := le_trans hi (Nat.sub_le _ _)
  have hsplit : l ++ m = l.take i ++ (l.drop i ++ m) := by
    rw [← List.append_assoc, List.take_append_drop]
  have harith : (l.take i ++ (l.drop i ++ m)).length - n
      = (l.take i).length + ((l.drop i ++ m).length - n) := by
    simp only [List.length_append, List.length_take, List.length_drop]
    omega
  symm
  conv_lhs => rw [hsplit]
  rw [harith]
  exact List.drop_append _

theorem takeLast_takeLast_append (n : ℕ) (l m : List α) :
    takeLast n (takeLast n l ++ m) = takeLast n (l ++ m) := by
  have := takeLast_append_drop n (l.length - n) l m le_rfl
  simpa [takeLast] using this

theorem foldl_appendCap_eq (es : List HistEntry) (h : List HistEntry)
    (hne : es ≠ []) :
    es.foldl appendCap h = takeLast 1000 (h ++ es) := by
  induction es generalizing h with
  | nil => exact absurd rfl hne
  | cons e es ih =>
    by_cases hes : es = []
    · subst hes
      simpa using appendCap_eq_takeLast h e
    · calc (e :: es).foldl appendCap h = es.foldl appendCap (appendCap h e) := rfl
      _ = takeLast 1000 (appendCap h e ++ es) := ih _ hes
      _ = takeLast 1000 (takeLast 1000 (h ++ [e]) ++ es) := by
          rw [appendCap_eq_takeLast]
      _ = takeLast 1000 ((h ++ [e]) ++ es) := takeLast_takeLast_append _ _ _
      _ = takeLast 1000 (h ++ e :: es) := by
          rw [List.append_assoc, List.singleton_append]

theorem update_from_feedback_history (state : RLState)
    (rt : RLUpdateRequest × String) (hv : pyLower rt.1.mode ∈ knownModes) :
    (update_from_feedback state rt.1 rt.2).mode_history
      = appendCap state.mode_history (entryOf rt) := by
  unfold update_from_feedback appendCap entryOf
  rw [if_pos hv]

theorem run_updates_history (state : RLState)
    (reqs : List (RLUpdateRequest × String))
    (hv : ∀ rt ∈ reqs, pyLower rt.1.mode ∈ knownModes) :
    (run_updates state reqs).mode_history
      = (reqs.map entryOf).foldl appendCap state.mode_history := by
  induction reqs generalizing state with
  | nil => rfl
  | cons rt reqs ih =>
    have hhd := hv rt (List.mem_cons_self rt reqs)
    have htl : ∀ r ∈ reqs, pyLower r.1.mode ∈ knownModes :=
      fun r hr => hv r (List.mem_cons_of_mem rt hr)
    calc (run_updates state (rt :: reqs)).mode_history
        = (run_updates (update_from_feedback state rt.1 rt.2) reqs).mode_history
          := rfl
      _ = (reqs.map entryOf).foldl appendCap
            (update_from_feedback state rt.1 rt.2).mode_history := ih _ htl
      _ = (reqs.map entryOf).foldl appendCap
            (appendCap state.mode_history (entryOf rt)) := by
          rw [update_from_feedback_history state rt hhd]
      _ = ((rt :: reqs).map entryOf).foldl appendCap state.mode_history := rfl

/-- C5: over any sequence of (valid-mode) feedback updates, the interaction log
`mode_history` has at most 1000 entries after every update, and once at least
1000 updates have been applied the log holds exactly the 1000 most recently
appended events, in append order (FIFO eviction of the oldest). -/
theorem mode_history_capped_fifo (state : RLState)
    (reqs : List (RLUpdateRequest × String))
    (hv : ∀ rt ∈ reqs, pyLower rt.1.mode ∈ knownModes)
    (k : ℕ) (hk : 0 < k) (hks : k ≤ reqs.length) :
    (run_updates state (reqs.take k)).mode_history.length ≤ 1000
    ∧ (1000 ≤ reqs.length →
        (run_updates state reqs).mode_history
          = takeLast 1000 (reqs.map entryOf)) := by
  have hvk : ∀ rt ∈ reqs.take k, pyLower rt.1.mode ∈ knownModes :=
    fun rt hrt => hv rt (List.mem_of_mem_take hrt)
  have hkne : reqs.take k ≠ [] := by
    intro hcontra
    have := congrArg List.length hcontra
    simp only [List.length_take, List.length_nil] at this
    omega
  have hmapne : (reqs.take k).map entryOf ≠ [] := by
    simpa [List.map_eq_nil_iff] using hkne
  constructor
  · rw [run_updates_history state _ hvk,
        foldl_appendCap_eq _ _ hmapne]
    exact takeLast_length_le _ _
  · intro hlen
    have hne : reqs ≠ [] := by
      intro hcontra
      subst hcontra
      simp only [List.length_nil] at hlen
      omega
    have hmapne2 : reqs.map entryOf ≠ [] := by
      simpa [List.map_eq_nil_iff] using hne
    rw [run_updates_history state reqs hv, foldl_appendCap_eq _ _ hmapne2]
    have hml : 1000 ≤ (reqs.map entryOf).length := by
      simpa using hlen
    unfold takeLast
    have harith : (state.mode_history ++ reqs.map entryOf).length - 1000
        = state.mode_history.length + ((reqs.map entryOf).length - 1000) := by
      simp only [List.length_append]
      omega
    rw [harith, List.drop_append]

/-- Concrete check of C5: after 1001 valid updates starting from the default
state, the log has at most 1000 entries and equals the last 1000 recorded
events. -/
theorem mode_history_capped_fifo_witness :
    (run_updates defaultRLState
        ((List.replicate 1001 ((⟨"quiz", 1, none⟩ : RLUpdateRequest), "t")).take
          1001)).mode_history.length ≤ 1000
    ∧ (run_updates defaultRLState
          (List.replicate 1001 ((⟨"quiz", 1, none⟩ : RLUpdateRequest), "t"))).mode_history
        = takeLast 1000
            ((List.replicate 1001 ((⟨"quiz", 1, none⟩ : RLUpdateRequest), "t")).map
              entryOf) := by
  have hv : ∀ rt ∈ List.replicate 1001 ((⟨"quiz", 1, none⟩ : RLUpdateRequest), "t"),
      pyLower rt.1.mode ∈ knownModes := by
    intro rt hrt
    rw [List.eq_of_mem_replicate hrt]
    decide
  have h := mode_history_capped_fifo defaultRLState
    (List.replicate 1001 ((⟨"quiz", 1, none⟩ : RLUpdateRequest), "t")) hv 1001
    (by norm_num) (by rw [List.length_replicate])
  exact ⟨h.1, h.2 (by rw [List.length_replicate]; norm_num)⟩

/-- `RLRecommendation` (src/core/messages.py, lines 69-74). -/
structure RLRecommendation where
  recommended_mode : String
  probabilities : List (String × ℚ)
  confidence : ℚ
deriving DecidableEq, Repr

/-- Python `max(d, key=d.get)` over an insertion-ordered non-empty dict: the
first key attaining the maximum value (later keys replace the running best only
when strictly greater). -/
def maxByFirst (x : String × ℚ) (xs : List (String × ℚ)) : String :=
  (xs.foldl (fun best cur => if best.2 < cur.2 then cur else best) x).1

/-- Descending insertion, used to model Python `sorted(vals, reverse=True)`. -/
def insertDesc (x : ℚ) : List ℚ → List ℚ
  | [] => [x]
  | y :: ys => if y ≤ x then x :: y :: ys else y :: insertDesc x ys

/-- Python `sorted(vals, reverse=True)` on a list of rationals. -/
def sortDesc (l : List ℚ) : List ℚ := l.foldr insertDesc []

/-- The floored Beta parameters used by `recommend_mode` for one mode
(src/agents/rl_agent.py, lines 115-121). -/
def flooredAlpha (state : RLState) (mode : String) : ℚ :=
  max (1/10) (alGetD state.mode_alpha mode 1)

def flooredBeta (state : RLState) (mode : String) : ℚ :=
  max (1/10) (alGetD state.mode_beta mode 1)

/-- The reported point estimate for one mode
(src/agents/rl_agent.py, lines 132-138). -/
def modeProb (state : RLState) (mode : String) : ℚ :=
  let alpha := flooredAlpha state mode
  let beta := flooredBeta state mode
  if 0 < alpha + beta then alpha / (alpha + beta) else 1/2

/-- One sampled value as used by `recommend_mode`: the Beta draw for a mode is
supplied by the `sample` oracle, with `none` standing for a sampling failure,
which the source replaces by `0.5` (src/agents/rl_agent.py, lines 123-130). -/
def sampleVal (sample : String → Option ℚ) (m : String) : ℚ :=
  (sample m).getD (1/2)

/-- Body of `RLAgent.recommend_mode` after the state reload
(src/agents/rl_agent.py, lines 109-162). -/
def recommend_mode (state : RLState) (sample : String → Option ℚ) :
    RLRecommendation :=
  let sq := sampleVal sample "quiz"
  let sf := sampleVal sample "flashcard"
  let si := sampleVal sample "interactive"
  let probabilities := [("quiz", modeProb state "quiz"),
                        ("flashcard", modeProb state "flashcard"),
                        ("interactive", modeProb state "interactive")]
  let recommended := maxByFirst ("quiz", sq) [("flashcard", sf), ("interactive", si)]
  let sorted := sortDesc [sq, sf, si]
  let confidence0 : ℚ := match sorted with
    | a :: b :: _ => a - b
    | _ => 1
  let confidence := min 1 (max 0 confidence0)
  { recommended_mode := recommended, probabilities := probabilities,
    confidence := confidence }

/-- The maximum of three rationals: the top sampled value. -/
def max3 (a b c : ℚ) : ℚ := max a (max b c)

/-- The median of three rationals: the second-highest sampled value. -/
def med3 (a b c : ℚ) : ℚ := max (min a b) (min (max a b) c)

theorem insertDesc_pair (a x y : ℚ) (_hxy : y ≤ x) :
    insertDesc a [x, y]
      = if x ≤ a then [a, x, y] else if y ≤ a then [x, a, y] else [x, y, a] := by
  by_cases h1 : x ≤ a
  · simp [insertDesc, h1]
  · by_cases h2 : y ≤ a
    · simp [insertDesc, h1, h2]
    · simp [insertDesc, h1, h2]

theorem sortDesc_three (a b c : ℚ) :
    sortDesc [a, b, c] = [max3 a b c, med3 a b c, min a (min b c)] := by
  have hstep : sortDesc [a, b, c] = insertDesc a (insertDesc b [c]) := rfl
  rw [hstep]
  rcases le_or_lt c b with hcb | hbc
  · rw [show insertDesc b [c] = [b, c] by simp [insertDesc, hcb],
        insertDesc_pair a b c hcb]
    unfold max3 med3
    split_ifs with h1 h2 <;>
      simp only [List.cons.injEq, and_true] <;>
      refine ⟨?_, ?_, ?_⟩ <;>
      simp only [max_def, min_def] <;> split_ifs <;> linarith
  · rw [show insertDesc b [c] = [c, b] by simp [insertDesc, not_le.mpr hbc],
        insertDesc_pair a c b hbc.le]
    unfold max3 med3
    split_ifs with h1 h2 <;>
      simp only [List.cons.injEq, and_true] <;>
      refine ⟨?_, ?_, ?_⟩ <;>
      simp only [max_def, min_def] <;> split_ifs <;> linarith

theorem modeProb_formula (state : RLState) (m : String) :
    modeProb state m
      = flooredAlpha state m / (flooredAlpha state m + flooredBeta state m)
    ∧ 0 ≤ modeProb state m ∧ modeProb state m ≤ 1 := by
  have hA : (1/10 : ℚ) ≤ flooredAlpha state m := le_max_left _ _
  have hB : (1/10 : ℚ) ≤ flooredBeta state m := le_max_left _ _
  have hpos : 0 < flooredAlpha state m + flooredBeta state m := by linarith
  have hform : modeProb state m
      = flooredAlpha state m / (flooredAlpha state m + flooredBeta state m) := by
    unfold modeProb
    rw [if_pos hpos]
  refine ⟨hform, ?_, ?_⟩
  · rw [hform]
    exact div_nonneg (by linarith) hpos.le
  · rw [hform]
    rw [div_le_one hpos]
    linarith

/-- C6: for every bandit state and every outcome of the per-mode Beta sampling,
`recommend_mode` returns a mode from the fixed set {quiz, flashcard,
interactive}; each reported probability equals `success / (success + failure)`
with both parameters floored at `0.1` and lies in `[0,1]`; ties in the sampled
values are broken by first-encountered order in the fixed mode list (a later
mode wins only with a strictly greater sample); and the confidence equals the
top sample minus the second-highest sample, clamped to `[0,1]`. -/
theorem recommend_mode_spec (state : RLState) (sample : String → Option ℚ) :
    (recommend_mode state sample).recommended_mode ∈ knownModes
    ∧ (∀ m ∈ knownModes,
        alGet (recommend_mode state sample).probabilities m
            = some (flooredAlpha state m
                / (flooredAlpha state m + flooredBeta state m))
          ∧ (∀ p, alGet (recommend_mode state sample).probabilities m = some p →
              0 ≤ p ∧ p ≤ 1))
    ∧ ((recommend_mode state sample).recommended_mode = "quiz" →
        sampleVal sample "flashcard" ≤ sampleVal sample "quiz"
        ∧ sampleVal sample "interactive" ≤ sampleVal sample "quiz")
    ∧ ((recommend_mode state sample).recommended_mode = "flashcard" →
        sampleVal sample "quiz" < sampleVal sample "flashcard"
        ∧ sampleVal sample "interactive" ≤ sampleVal sample "flashcard")
    ∧ ((recommend_mode state sample).recommended_mode = "interactive" →
        max (sampleVal sample "quiz") (sampleVal sample "flashcard")
          < sampleVal sample "interactive")
    ∧ (recommend_mode state sample).confidence
        = min 1 (max 0
            (max3 (sampleVal sample "quiz") (sampleVal sample "flashcard")
                (sampleVal sample "interactive")
              - med3 (sampleVal sample "quiz") (sampleVal sample "flashcard")
                  (sampleVal sample "interactive"))) := by
  set sq := sampleVal sample "quiz" with hsq
  set sf := sampleVal sample "flashcard" with hsf
  set si := sampleVal sample "interactive" with hsi
  have hrec : (recommend_mode state sample).recommended_mode
      = maxByFirst ("quiz", sq) [("flashcard", sf), ("interactive", si)] := rfl
  have hprobs : (recommend_mode state sample).probabilities
      = [("quiz", modeProb state "quiz"), ("flashcard", modeProb state "flashcard"),
         ("interactive", modeProb state "interactive")] := rfl
  have hconf : (recommend_mode state sample).confidence
      = min 1 (max 0 (match sortDesc [sq, sf, si] with
          | a :: b :: _ => a - b
          | _ => 1)) := rfl
  have hmbf : maxByFirst ("quiz", sq) [("flashcard", sf), ("interactive", si)]
      = (if (if sq < sf then (("flashcard", sf) : String × ℚ)
            else ("quiz", sq)).2 < si then
          ("interactive", si)
        else if sq < sf then ("flashcard", sf) else ("quiz", sq)).1 := rfl
  refine ⟨?_, ?_, ?_, ?_, ?_, ?_⟩
  · rw [hrec, hmbf]
    by_cases h1 : sq < sf <;> by_cases h2 : sf < si <;> by_cases h3 : sq < si <;>
      simp [h1, h2, h3, knownModes]
  · intro m hm
    have h1 : alGet (recommend_mode state sample).probabilities "quiz"
        = some (modeProb state "quiz") := rfl
    have h2 : alGet (recommend_mode state sample).probabilities "flashcard"
        = some (modeProb state "flashcard") := rfl
    have h3 : alGet (recommend_mode state sample).probabilities "interactive"
        = some (modeProb state "interactive") := rfl
    simp only [knownModes, List.mem_cons, List.not_mem_nil, or_false] at hm
    rcases hm with rfl | rfl | rfl
    · refine ⟨by rw [h1, (modeProb_formula state "quiz").1], ?_⟩
      intro p hp
      rw [h1] at hp
      injection hp with hp
      rw [← hp]
      exact (modeProb_formula state "quiz").2
    · refine ⟨by rw [h2, (modeProb_formula state "flashcard").1], ?_⟩
      intro p hp
      rw [h2] at hp
      injection hp with hp
      rw [← hp]
      exact (modeProb_formula state "flashcard").2
    · refine ⟨by rw [h3, (modeProb_formula state "interactive").1], ?_⟩
      intro p hp
      rw [h3] at hp
      injection hp with hp
      rw [← hp]
      exact (modeProb_formula state "interactive").2
  · rw [hrec, hmbf]
    intro hq
    by_cases h1 : sq < sf <;> by_cases h2 : sf < si <;> by_cases h3 : sq < si <;>
      simp [h1, h2, h3] at hq ⊢ <;> first | (constructor <;> linarith) | linarith
  · rw [hrec, hmbf]
    intro hq
    by_cases h1 : sq < sf <;> by_cases h2 : sf < si <;> by_cases h3 : sq < si <;>
      simp [h1, h2, h3] at hq ⊢ <;> first | (constructor <;> linarith) | linarith
  · rw [hrec, hmbf]
    intro hq
    by_cases h1 : sq < sf <;> by_cases h2 : sf < si <;> by_cases h3 : sq < si <;>
      simp [h1, h2, h3, max_def] at hq ⊢ <;> split_ifs <;> linarith
  · rw [hconf, sortDesc_three]

/-- The shape of a façade command result: a `success` flag, an optional
`error` message, and the remaining action-specific fields
(src/core/orchestrator.py). -/
structure CommandResult where
  success : Bool
  error : Option String
  extra : List (String × String)
deriving DecidableEq, Repr

/-- `ManagerCommand` (src/core/messages.py, lines 77-82); parameter values are
modelled as strings. -/
structure ManagerCommand where
  action : String
  params : List (String × String)
  session_id : Option String
deriving DecidableEq, Repr

/-- A façade handler: takes the enriched parameter map and either returns a
result or raises an exception carrying a message. -/
def Handler : Type := List (String × String) → Except String CommandResult

/-- The valid façade actions (src/core/orchestrator.py, lines 34-45). -/
def validActions : List String :=
  ["extract", "generate", "update_rl", "recommend", "survey", "reset_preferences"]

/-- The body of the `try` block of `ManagerAgent.handle_command`
(src/core/orchestrator.py, lines 28-47): enrich the params with the session id
and dispatch on the action string; an unknown action returns a failure result
without raising. -/
def dispatchCommand (hExtract hGenerate hUpdateRl hRecommend hSurvey hReset :
    Handler) (command : ManagerCommand) : Except String CommandResult :=
  let params := match command.session_id with
    | some sid => alSet command.params "session_id" sid
    | none => command.params
  if command.action = "extract" then hExtract params
  else if command.action = "generate" then hGenerate params
  else if command.action = "update_rl" then hUpdateRl params
  else if command.action = "recommend" then hRecommend params
  else if command.action = "survey" then hSurvey params
  else if command.action = "reset_preferences" then hReset params
  else Except.ok ⟨false, some ("Unknown action: " ++ command.action), []⟩

/-- `ManagerAgent.handle_command` (src/core/orchestrator.py, lines 26-50): the
dispatch wrapped in `try/except`, converting any raised exception into a
`{success: False, error: str(e)}` result. -/
def handle_command (hExtract hGenerate hUpdateRl hRecommend hSurvey hReset :
    Handler) (command : ManagerCommand) : CommandResult :=
  match dispatchCommand hExtract hGenerate hUpdateRl hRecommend hSurvey hReset
      command with
  | Except.ok r => r
  | Except.error e => ⟨false, some e, []⟩

/-- C7: for every choice of handler behaviour and every command, an action
string outside the six-element dispatch table yields a structured
`success = false` result carrying an error message, and any exception raised
inside the dispatched handler is caught and converted into a
`{success: false, error}` result — `handle_command` totally always returns a
`CommandResult` and never propagates an exception. -/
theorem handle_command_safe (hExtract hGenerate hUpdateRl hRecommend hSurvey
    hReset : Handler) (command : ManagerCommand) :
    (command.action ∉ validActions →
      handle_command hExtract hGenerate hUpdateRl hRecommend hSurvey hReset
          command
        = ⟨false, some ("Unknown action: " ++ command.action), []⟩)
    ∧ (∀ e, dispatchCommand hExtract hGenerate hUpdateRl hRecommend hSurvey
          hReset command = Except.error e →
        handle_command hExtract hGenerate hUpdateRl hRecommend hSurvey hReset
            command
          = ⟨false, some e, []⟩)
    ∧ (∀ r, dispatchCommand hExtract hGenerate hUpdateRl hRecommend hSurvey
          hReset command = Except.ok r →
        handle_command hExtract hGenerate hUpdateRl hRecommend hSurvey hReset
            command
          = r) := by
  refine ⟨?_, ?_, ?_⟩
  · intro hout
    simp only [validActions, List.mem_cons, List.not_mem_nil, or_false,
      not_or] at hout
    obtain ⟨h1, h2, h3, h4, h5, h6⟩ := hout
    unfold handle_command dispatchCommand
    rw [if_neg h1, if_neg h2, if_neg h3, if_neg h4, if_neg h5, if_neg h6]
  · intro e he
    unfold handle_command
    rw [he]
  · intro r hr
    unfold handle_command
    rw [hr]

/-- A handler that always succeeds, for the concrete C7 check. -/
def okHandler : Handler := fun _ => Except.ok ⟨true, none, []⟩

/-- A handler that always raises, for the concrete C7 check. -/
def raiseHandler (msg : String) : Handler := fun _ => Except.error msg

/-- Concrete check of C7: the unknown action "fly" yields a typed failure, and
an exception raised by the update handler is converted into a failure result
rather than propagated. -/
theorem handle_command_safe_witness :
    handle_command okHandler okHandler okHandler okHandler okHandler okHandler
        ⟨"fly", [], none⟩
      = ⟨false, some "Unknown action: fly", []⟩
    ∧ handle_command okHandler okHandler (raiseHandler "boom") okHandler
        okHandler okHandler ⟨"update_rl", [], none⟩
      = ⟨false, some "boom", []⟩ := by
  constructor
  · exact (handle_command_safe okHandler okHandler okHandler okHandler okHandler
      okHandler ⟨"fly", [], none⟩).1 (by decide)
  · exact (handle_command_safe okHandler okHandler (raiseHandler "boom")
      okHandler okHandler okHandler ⟨"update_rl", [], none⟩).2.1 "boom" rfl

/-- The recommendation result of the façade recommend handler: success flag,
recommended mode, per-mode probabilities and confidence
(src/core/orchestrator.py, lines 263-277). -/
structure RecommendResult where
  success : Bool
  recommended_mode : String
  probabilities : List (String × ℚ)
  confidence : ℚ
deriving DecidableEq, Repr

/-- `ManagerAgent._handle_recommend` (src/core/orchestrator.py, lines
255-277): the attempt to build a recommendation is passed in as an `Except`
value; an exception is converted into a `success = True` default
recommendation of "quiz" with flat probabilities and zero confidence. -/
def _handle_recommend (attempt : Except String RLRecommendation) :
    RecommendResult :=
  match attempt with
  | Except.ok recommendation =>
      ⟨true, recommendation.recommended_mode, recommendation.probabilities,
       recommendation.confidence⟩
  | Except.error _ =>
      ⟨true, "quiz", [("quiz", 1/2), ("flashcard", 1/2), ("interactive", 1/2)], 0⟩

/-- C10: the façade recommend handler never reports failure: whatever the
outcome of computing the recommendation, the returned result has
`success = true`, and on any internal error it is exactly the "quiz" fallback
with probabilities `0.5` for each mode and confidence `0` — so the `success`
field alone cannot distinguish a genuine recommendation from the error
fallback. -/
theorem handle_recommend_never_fails (attempt : Except String RLRecommendation)
    (e : String) :
    (_handle_recommend attempt).success = true
    ∧ _handle_recommend (Except.error e)
      = ⟨true, "quiz", [("quiz", 1/2), ("flashcard", 1/2), ("interactive", 1/2)],
         0⟩ := by
  constructor
  · cases attempt <;> rfl
  · rfl

/-- Python `int(q)` for a rational: truncation toward zero. -/
def pyInt (q : ℚ) : ℤ := if 0 ≤ q then ⌊q⌋ else -⌊-q⌋

/-- The feedback context dictionary built by `_get_feedback_context`
(src/core/orchestrator.py, lines 391-397). -/
structure FeedbackContext where
  has_feedback : Bool
  average_feedback : ℚ
  feedback_count : ℕ
  positive_rate : ℚ
  adaptation_instructions : String
deriving DecidableEq, Repr

/-- The neutral default context (src/core/orchestrator.py, lines 391-397). -/
def defaultFeedbackContext : FeedbackContext :=
  { has_feedback := false, average_feedback := 1/2, feedback_count := 0,
    positive_rate := 1/2, adaptation_instructions := "" }

/-- `ManagerAgent._calculate_adaptive_count` (src/core/orchestrator.py, lines
332-362): multiplicative feedback adjustment of a base item count. -/
def _calculate_adaptive_count (base_count : ℤ) (feedback_context :
    FeedbackContext) : ℤ :=
  if feedback_context.has_feedback = false then base_count
  else
    let avg_feedback := feedback_context.average_feedback
    if avg_feedback < 2/5 then
      max 2 (pyInt (base_count * (2/5 + avg_feedback * (2/5))))
    else if 7/10 < avg_feedback then
      min (pyInt (base_count * (6/5 + (avg_feedback - 7/10) * 1))) (base_count * 2)
    else base_count

/-- C4: for every base count of at least 2 and every feedback context: with no
feedback the adaptive count is the base count unchanged; with average feedback
`0.3` the result is at most the base count and at least 2; with average
feedback `0.9` it is at least the base count and at most twice it; and with
average feedback `0.5` it equals the base count exactly. -/
theorem calculate_adaptive_count_spec (base_count : ℤ) (hb : 2 ≤ base_count)
    (ctx : FeedbackContext) :
    (ctx.has_feedback = false →
      _calculate_adaptive_count base_count ctx = base_count)
    ∧ (ctx.has_feedback = true → ctx.average_feedback = 3/10 →
      _calculate_adaptive_count base_count ctx ≤ base_count
      ∧ 2 ≤ _calculate_adaptive_count base_count ctx)
    ∧ (ctx.has_feedback = true → ctx.average_feedback = 9/10 →
      base_count ≤ _calculate_adaptive_count base_count ctx
      ∧ _calculate_adaptive_count base_count ctx ≤ 2 * base_count)
    ∧ (ctx.has_feedback = true → ctx.average_feedback = 1/2 →
      _calculate_adaptive_count base_count ctx = base_count) := by
  have hb0 : (0 : ℚ) ≤ (base_count : ℚ) := by exact_mod_cast le_trans (by norm_num) hb
  refine ⟨?_, ?_, ?_, ?_⟩
  · intro h
    unfold _calculate_adaptive_count
    rw [if_pos h]
  · intro hf havg
    unfold _calculate_adaptive_count
    rw [hf, havg]
    norm_num
    have hpy : pyInt ((base_count : ℚ) * (13/25))
        = ⌊(base_count : ℚ) * (13/25)⌋ := if_pos (by positivity)
    refine ⟨hb, ?_⟩
    rw [hpy]
    have hle : (base_count : ℚ) * (13/25) ≤ (base_count : ℚ) := by nlinarith
    calc ⌊(base_count : ℚ) * (13/25)⌋
        ≤ ⌊(base_count : ℚ)⌋ := Int.floor_le_floor hle
      _ = base_count := Int.floor_intCast base_count
  · intro hf havg
    unfold _calculate_adaptive_count
    rw [hf, havg]
    norm_num
    have hpy : pyInt ((base_count : ℚ) * (7/5))
        = ⌊(base_count : ℚ) * (7/5)⌋ := if_pos (by positivity)
    refine ⟨⟨?_, by linarith⟩, Or.inr (by linarith)⟩
    rw [hpy]
    apply Int.le_floor.mpr
    nlinarith
  · intro hf havg
    unfold _calculate_adaptive_count
    rw [hf, havg]
    norm_num

/-- Concrete check of C4: with base count 10, no feedback keeps 10, average
`0.3` gives a value in `[2, 10]`, average `0.9` a value in `[10, 20]`, and
average `0.5` exactly 10. -/
theorem calculate_adaptive_count_spec_witness :
    _calculate_adaptive_count 10 defaultFeedbackContext = 10
    ∧ (_calculate_adaptive_count 10
        ⟨true, 3/10, 1, 0, ""⟩ ≤ 10
      ∧ 2 ≤ _calculate_adaptive_count 10 ⟨true, 3/10, 1, 0, ""⟩)
    ∧ (10 ≤ _calculate_adaptive_count 10 ⟨true, 9/10, 1, 1, ""⟩
      ∧ _calculate_adaptive_count 10 ⟨true, 9/10, 1, 1, ""⟩ ≤ 20)
    ∧ _calculate_adaptive_count 10 ⟨true, 1/2, 1, 1, ""⟩ = 10 := by
  have h1 := calculate_adaptive_count_spec 10 (by norm_num) defaultFeedbackContext
  have h2 := calculate_adaptive_count_spec 10 (by norm_num) ⟨true, 3/10, 1, 0, ""⟩
  have h3 := calculate_adaptive_count_spec 10 (by norm_num) ⟨true, 9/10, 1, 1, ""⟩
  have h4 := calculate_adaptive_count_spec 10 (by norm_num) ⟨true, 1/2, 1, 1, ""⟩
  refine ⟨h1.1 rfl, h2.2.1 rfl rfl, ?_, h4.2.2.2 rfl rfl⟩
  have := h3.2.2.1 rfl rfl
  exact ⟨this.1, by linarith [this.2]⟩

/-- The history entries matching one content type
(src/core/orchestrator.py, line 400). -/
def modeHistoryFor (history : List HistEntry) (content_type : String) :
    List HistEntry :=
  history.filter (fun entry => entry.mode == content_type)

/-- The context value that the non-empty branch of `_get_feedback_context`
computes and logs (src/core/orchestrator.py, lines 405-462): `has_feedback`
set, the count, the mean of the matching feedback values and the fraction of
them above `0.5`.  The adaptation-instruction text is kept abstract as the
empty string; the source assembles prose from the recent average, which the
claims do not touch.  In the source this value is built and logged but the
function body ends without a `return` statement, so the value is discarded. -/
def computedFeedbackContext (history : List HistEntry) (content_type : String) :
    FeedbackContext :=
  let mode_history := modeHistoryFor history content_type
  let feedbacks := mode_history.map (fun entry => entry.feedback)
  { has_feedback := true
    feedback_count := mode_history.length
    average_feedback := if feedbacks.length ≠ 0 then
        feedbacks.sum / feedbacks.length else 1/2
    positive_rate := if feedbacks.length ≠ 0 then
        ((feedbacks.filter (fun f => 1/2 < f)).length : ℚ) / feedbacks.length
      else 1/2
    adaptation_instructions := "" }

/-- `ManagerAgent._get_feedback_context` (src/core/orchestrator.py, lines
381-464) as written: the empty-history branch returns the neutral default
context (line 403), but the non-empty branch computes `feedback_context`,
logs it, and then falls off the end of the function without a `return`
statement (the file ends at line 464), so the call evaluates to Python
`None`, modelled here by `none`. -/
def _get_feedback_context (history : List HistEntry) (content_type : String) :
    Option FeedbackContext :=
  let mode_history := modeHistoryFor history content_type
  if mode_history.isEmpty then some defaultFeedbackContext
  else
    let discarded := computedFeedbackContext history content_type
    none

/-- C1 (code bug): with an empty matching history the builder does return the
neutral default with `has_feedback = false`, but with at least one matching
event it returns `None` instead of the computed context — even though the
discarded computed value does carry `has_feedback = true`, the arithmetic mean
and the positive rate the claim describes.  Shown at the failing input of a
single "quiz" event with value `1`. -/
theorem get_feedback_context_missing_return :
    _get_feedback_context [] "quiz" = some defaultFeedbackContext
    ∧ defaultFeedbackContext.has_feedback = false
    ∧ _get_feedback_context
        [{ mode := "quiz", feedback := 1, timestamp := "t", session_id := none }]
        "quiz" = none
    ∧ (computedFeedbackContext
        [{ mode := "quiz", feedback := 1, timestamp := "t", session_id := none }]
        "quiz").has_feedback = true
    ∧ (computedFeedbackContext
        [{ mode := "quiz", feedback := 1, timestamp := "t", session_id := none }]
        "quiz").average_feedback = 1
    ∧ (computedFeedbackContext
        [{ mode := "quiz", feedback := 1, timestamp := "t", session_id := none }]
        "quiz").positive_rate = 1 := by
  refine ⟨rfl, rfl, rfl, rfl, ?_, ?_⟩ <;>
    norm_num [computedFeedbackContext, modeHistoryFor, List.filter]

/-- `ContentType` (src/core/messages.py, lines 8-13). -/
inductive ContentType where
  | quiz | flashcard | interactive | mixed
deriving DecidableEq, Repr

/-- `GenerationResponse` (src/core/messages.py, lines 51-57), polymorphic in
the shape of the `data` payload. -/
structure GenerationResponse (δ : Type) where
  content_type : ContentType
  data : δ
  success : Bool
  error : Option String
deriving DecidableEq, Repr

/-- A mode-specific data dictionary; the values are opaque to the bundling
logic, which only tests dict truthiness (non-emptiness). -/
def DataDict (α : Type) : Type := List (String × α)

/-- Python `x or 'Failed to generate'` on an optional error string: `None` and
the empty string are falsy (src/agents/llm_agent.py, lines 819, 823, 827). -/
def pyOrDefault (o : Option String) (d : String) : String :=
  match o with
  | some s => if s.isEmpty then d else s
  | none => d

/-- Whether one mode of the bundle counts as generated: Python
`response.success and response.data` is truthy
(src/agents/llm_agent.py, lines 798-806). -/
def modeOk (r : GenerationResponse (DataDict α)) : Bool :=
  r.success && !r.data.isEmpty

/-- The per-mode failure messages accumulated by `generate_mixed_bundle`
(src/agents/llm_agent.py, lines 817-829). -/
def mixedFailureMessages (q f i : GenerationResponse (DataDict α)) :
    List String :=
  (if modeOk q then [] else ["Quiz: " ++ pyOrDefault q.error "Failed to generate"])
  ++ (if modeOk f then []
      else ["Flashcards: " ++ pyOrDefault f.error "Failed to generate"])
  ++ (if modeOk i then []
      else ["Interactive: " ++ pyOrDefault i.error "Failed to generate"])

/-- The fan-in of `LLMAgent.generate_mixed_bundle`
(src/agents/llm_agent.py, lines 795-843): given the three independently
captured per-mode responses, build the bundle response.  Failed modes
contribute empty dicts, the bundle succeeds when at least one mode produced
non-empty data, and any failure is enumerated in the aggregated error
string. -/
def generate_mixed_bundle_combine (q f i : GenerationResponse (DataDict α)) :
    GenerationResponse (DataDict (DataDict α)) :=
  let data : DataDict (DataDict α) :=
    [("quiz", if modeOk q then q.data else []),
     ("flashcards", if modeOk f then f.data else []),
     ("interactive", if modeOk i then i.data else [])]
  let success := modeOk q || modeOk f || modeOk i
  let errors := mixedFailureMessages q f i
  let error_msg := if errors.isEmpty then none
    else some ("Failed to generate: " ++ String.intercalate ", " errors)
  { content_type := ContentType.mixed, data := data, success := success,
    error := error_msg }

/-- C8: for every combination of per-mode outcomes, the bundle response
succeeds exactly when at least one of the three generator calls returned
success with non-empty data; each failed mode contributes an empty data object
under its key; when all three modes succeeded there is no error string; and
whenever at least one mode failed the response carries the aggregated error
string listing each failed mode with its reason. -/
theorem generate_mixed_bundle_combine_spec {α : Type}
    (q f i : GenerationResponse (DataDict α)) :
    ((generate_mixed_bundle_combine q f i).success = true ↔
      (q.success = true ∧ q.data ≠ []) ∨ (f.success = true ∧ f.data ≠ [])
        ∨ (i.success = true ∧ i.data ≠ []))
    ∧ (¬(q.success = true ∧ q.data ≠ []) →
        alGet (generate_mixed_bundle_combine q f i).data "quiz" = some [])
    ∧ (¬(f.success = true ∧ f.data ≠ []) →
        alGet (generate_mixed_bundle_combine q f i).data "flashcards" = some [])
    ∧ (¬(i.success = true ∧ i.data ≠ []) →
        alGet (generate_mixed_bundle_combine q f i).data "interactive" = some [])
    ∧ ((q.success = true ∧ q.data ≠ []) ∧ (f.success = true ∧ f.data ≠ [])
        ∧ (i.success = true ∧ i.data ≠ []) →
        (generate_mixed_bundle_combine q f i).error = none)
    ∧ (¬((q.success = true ∧ q.data ≠ []) ∧ (f.success = true ∧ f.data ≠ [])
        ∧ (i.success = true ∧ i.data ≠ [])) →
        (generate_mixed_bundle_combine q f i).error
          = some ("Failed to generate: "
              ++ String.intercalate ", " (mixedFailureMessages q f i))
        ∧ (¬(q.success = true ∧ q.data ≠ []) →
            ("Quiz: " ++ pyOrDefault q.error "Failed to generate")
              ∈ mixedFailureMessages q f i)
        ∧ (¬(f.success = true ∧ f.data ≠ []) →
            ("Flashcards: " ++ pyOrDefault f.error "Failed to generate")
              ∈ mixedFailureMessages q f i)
        ∧ (¬(i.success = true ∧ i.data ≠ []) →
            ("Interactive: " ++ pyOrDefault i.error "Failed to generate")
              ∈ mixedFailureMessages q f i)) := by
  have hq : modeOk q = true ↔ (q.success = true ∧ q.data ≠ []) := by
    simp [modeOk, List.isEmpty_iff]
  have hf : modeOk f = true ↔ (f.success = true ∧ f.data ≠ []) := by
    simp [modeOk, List.isEmpty_iff]
  have hi : modeOk i = true ↔ (i.success = true ∧ i.data ≠ []) := by
    simp [modeOk, List.isEmpty_iff]
  refine ⟨?_, ?_, ?_, ?_, ?_, ?_⟩
  · rw [← hq, ← hf, ← hi]
    simp [generate_mixed_bundle_combine, or_assoc]
  · intro h
    rw [← hq] at h
    simp only [Bool.not_eq_true] at h
    simp [generate_mixed_bundle_combine, alGet, List.find?, h]
  · intro h
    rw [← hf] at h
    simp only [Bool.not_eq_true] at h
    simp [generate_mixed_bundle_combine, alGet, List.find?, h]
  · intro h
    rw [← hi] at h
    simp only [Bool.not_eq_true] at h
    simp [generate_mixed_bundle_combine, alGet, List.find?, h]
  · intro h
    rw [← hq, ← hf, ← hi] at h
    obtain ⟨h1, h2, h3⟩ := h
    simp [generate_mixed_bundle_combine, mixedFailureMessages, h1, h2, h3]
  · intro h
    rw [← hq, ← hf, ← hi] at h
    have hne : mixedFailureMessages q f i ≠ [] := by
      unfold mixedFailureMessages
      by_cases h1 : modeOk q = true <;> by_cases h2 : modeOk f = true <;>
        by_cases h3 : modeOk i = true <;>
          simp_all [Bool.not_eq_true]
    refine ⟨?_, ?_, ?_, ?_⟩
    · simp only [generate_mixed_bundle_combine]
      rw [if_neg (by simpa [List.isEmpty_iff] using hne)]
    · intro hqq
      rw [← hq] at hqq
      simp only [Bool.not_eq_true] at hqq
      simp [mixedFailureMessages, hqq]
    · intro hff
      rw [← hf] at hff
      simp only [Bool.not_eq_true] at hff
      simp [mixedFailureMessages, hff]
    · intro hii
      rw [← hi] at hii
      simp only [Bool.not_eq_true] at hii
      simp [mixedFailureMessages, hii]

/-- A concrete successful quiz response for the C8 check. -/
def okQuizResponse : GenerationResponse (DataDict String) :=
  { content_type := ContentType.quiz, data := [("questions", "q1")],
    success := true, error := none }

/-- A concrete failed flashcard response for the C8 check. -/
def failedFlashcardResponse : GenerationResponse (DataDict String) :=
  { content_type := ContentType.flashcard, data := [], success := false,
    error := some "timeout" }

/-- A concrete failed interactive response (empty error string) for C8. -/
def failedInteractiveResponse : GenerationResponse (DataDict String) :=
  { content_type := ContentType.interactive, data := [], success := false,
    error := some "" }

/-- Concrete check of C8: quiz succeeded while flashcards and interactive
failed — the bundle succeeds, the failed modes carry empty data, and the
error string enumerates both failures with their reasons. -/
theorem generate_mixed_bundle_combine_spec_witness :
    (generate_mixed_bundle_combine okQuizResponse failedFlashcardResponse
      failedInteractiveResponse).success = true
    ∧ alGet (generate_mixed_bundle_combine okQuizResponse
        failedFlashcardResponse failedInteractiveResponse).data "flashcards"
      = some []
    ∧ (generate_mixed_bundle_combine okQuizResponse failedFlashcardResponse
        failedInteractiveResponse).error
      = some ("Failed to generate: "
          ++ String.intercalate ", "
            (mixedFailureMessages okQuizResponse failedFlashcardResponse
              failedInteractiveResponse))
    ∧ ("Flashcards: timeout"
        ∈ mixedFailureMessages okQuizResponse failedFlashcardResponse
            failedInteractiveResponse)
    ∧ ("Interactive: Failed to generate"
        ∈ mixedFailureMessages okQuizResponse failedFlashcardResponse
            failedInteractiveResponse) := by
  have h := generate_mixed_bundle_combine_spec okQuizResponse
    failedFlashcardResponse failedInteractiveResponse
  have hnotall : ¬((okQuizResponse.success = true ∧ okQuizResponse.data ≠ [])
      ∧ (failedFlashcardResponse.success = true
          ∧ failedFlashcardResponse.data ≠ [])
      ∧ (failedInteractiveResponse.success = true
          ∧ failedInteractiveResponse.data ≠ [])) := by
    simp [okQuizResponse, failedFlashcardResponse, failedInteractiveResponse]
  have hfFail : ¬(failedFlashcardResponse.success = true
      ∧ failedFlashcardResponse.data ≠ []) := by
    simp [failedFlashcardResponse]
  have hiFail : ¬(failedInteractiveResponse.success = true
      ∧ failedInteractiveResponse.data ≠ []) := by
    simp [failedInteractiveResponse]
  refine ⟨?_, h.2.2.1 hfFail, (h.2.2.2.2.2 hnotall).1, ?_, ?_⟩
  · exact h.1.mpr (Or.inl (by simp [okQuizResponse]))
  · have := (h.2.2.2.2.2 hnotall).2.2.1 hfFail
    simpa [failedFlashcardResponse, pyOrDefault] using this
  · have := (h.2.2.2.2.2 hnotall).2.2.2 hiFail
    simpa [failedInteractiveResponse, pyOrDefault] using this

/-- Modulus for 32-bit arithmetic. -/
def m32 : ℕ := 4294967296

/-- Left rotation of a 32-bit value by `c` bits. -/
def rotl32 (x c : ℕ) : ℕ :=
  ((x * 2 ^ c) % m32) + (x % m32) / 2 ^ (32 - c)

/-- UTF-8 encoding of one character, modelling Python `str.encode()`. -/
def utf8Bytes (c : Char) : List ℕ :=
  let n := c.toNat
  if n < 128 then [n]
  else if n < 2048 then [192 + n / 64, 128 + n % 64]
  else if n < 65536 then [224 + n / 4096, 128 + (n / 64) % 64, 128 + n % 64]
  else [240 + n / 262144, 128 + (n / 4096) % 64, 128 + (n / 64) % 64,
        128 + n % 64]

/-- UTF-8 bytes of a string. -/
def strBytes (s : String) : List ℕ := (s.data.map utf8Bytes).flatten

/-- MD5 padding: a `0x80` byte, zeros up to 56 mod 64, then the bit length as
eight little-endian bytes. -/
def md5Pad (msg : List ℕ) : List ℕ :=
  let len := msg.length
  let padZeros := (120 - (len + 1) % 64) % 64
  let lenBits := (8 * len) % 2 ^ 64
  msg ++ [128] ++ List.replicate padZeros 0
    ++ (List.range 8).map (fun j => (lenBits / 2 ^ (8 * j)) % 256)

/-- The sixteen little-endian 32-bit words of one 64-byte block. -/
def chunkWords (block : List ℕ) : List ℕ :=
  (List.range 16).map (fun j =>
    block.getD (4 * j) 0 + 256 * block.getD (4 * j + 1) 0
      + 65536 * block.getD (4 * j + 2) 0 + 16777216 * block.getD (4 * j + 3) 0)

/-- MD5 per-round left-rotation amounts. -/
def md5S : List ℕ :=
  [7, 12, 17, 22, 7, 12, 17, 22, 7, 12, 17, 22, 7, 12, 17, 22,
   5, 9, 14, 20, 5, 9, 14, 20, 5, 9, 14, 20, 5, 9, 14, 20,
   4, 11, 16, 23, 4, 11, 16, 23, 4, 11, 16, 23, 4, 11, 16, 23,
   6, 10, 15, 21, 6, 10, 15, 21, 6, 10, 15, 21, 6, 10, 15, 21]

/-- MD5 per-round additive constants. -/
def md5K : List ℕ :=
  [0xd76aa478, 0xe8c7b756, 0x242070db, 0xc1bdceee,
   0xf57c0faf, 0x4787c62a, 0xa8304613, 0xfd469501,
   0x698098d8, 0x8b44f7af, 0xffff5bb1, 0x895cd7be,
   0x6b901122, 0xfd987193, 0xa679438e, 0x49b40821,
   0xf61e2562, 0xc040b340, 0x265e5a51, 0xe9b6c7aa,
   0xd62f105d, 0x02441453, 0xd8a1e681, 0xe7d3fbc8,
   0x21e1cde6, 0xc33707d6, 0xf4d50d87, 0x455a14ed,
   0xa9e3e905, 0xfcefa3f8, 0x676f02d9, 0x8d2a4c8a,
   0xfffa3942, 0x8771f681, 0x6d9d6122, 0xfde5380c,
   0xa4beea44, 0x4bdecfa9, 0xf6bb4b60, 0xbebfbc70,
   0x289b7ec6, 0xeaa127fa, 0xd4ef3085, 0x04881d05,
   0xd9d4d039, 0xe6db99e5, 0x1fa27cf8, 0xc4ac5665,
   0xf4292244, 0x432aff97, 0xab9423a7, 0xfc93a039,
   0x655b59c3, 0x8f0ccc92, 0xffeff47d, 0x85845dd1,
   0x6fa87e4f, 0xfe2ce6e0, 0xa3014314, 0x4e0811a1,
   0xf7537e82, 0xbd3af235, 0x2ad7d2bb, 0xeb86d391]

/-- One MD5 round on the running state `(A, B, C, D)`. -/
def md5Round (M : List ℕ) (st : ℕ × ℕ × ℕ × ℕ) (idx : ℕ) : ℕ × ℕ × ℕ × ℕ :=
  let A := st.1
  let B := st.2.1
  let C := st.2.2.1
  let D := st.2.2.2
  let fg : ℕ × ℕ :=
    if idx < 16 then ((B &&& C) ||| ((B ^^^ 0xFFFFFFFF) &&& D), idx)
    else if idx < 32 then
      ((D &&& B) ||| ((D ^^^ 0xFFFFFFFF) &&& C), (5 * idx + 1) % 16)
    else if idx < 48 then (B ^^^ C ^^^ D, (3 * idx + 5) % 16)
    else (C ^^^ (B ||| (D ^^^ 0xFFFFFFFF)), (7 * idx) % 16)
  let acc := (fg.1 + A + md5K.getD idx 0 + M.getD fg.2 0) % m32
  (D, (B + rotl32 acc (md5S.getD idx 0)) % m32, B, C)

/-- One MD5 block step. -/
def md5Block (st : ℕ × ℕ × ℕ × ℕ) (block : List ℕ) : ℕ × ℕ × ℕ × ℕ :=
  let M := chunkWords block
  let r := (List.range 64).foldl (md5Round M) st
  ((st.1 + r.1) % m32, (st.2.1 + r.2.1) % m32, (st.2.2.1 + r.2.2.1) % m32,
   (st.2.2.2 + r.2.2.2) % m32)

/-- Split a byte list into 64-byte blocks. -/
def chunks64 (l : List ℕ) : List (List ℕ) :=
  if h : l = [] then []
  else l.take 64 :: chunks64 (l.drop 64)
termination_by l.length
decreasing_by
  simp only [List.length_drop]
  have h2 : 0 < l.length := List.length_pos.mpr h
  omega

/-- MD5 initial state. -/
def md5Init : ℕ × ℕ × ℕ × ℕ := (0x67452301, 0xefcdab89, 0x98badcfe, 0x10325476)

/-- One lowercase hex digit. -/
def hexChar (n : ℕ) : Char :=
  if n < 10 then Char.ofNat (48 + n) else Char.ofNat (87 + n)

/-- Two lowercase hex digits of one byte. -/
def byteHex (b : ℕ) : List Char := [hexChar (b / 16), hexChar (b % 16)]

/-- Eight hex digits of a 32-bit word, little-endian byte order. -/
def wordLEHex (w : ℕ) : List Char :=
  byteHex (w % 256) ++ byteHex (w / 256 % 256) ++ byteHex (w / 65536 % 256)
    ++ byteHex (w / 16777216 % 256)

/-- Python `hashlib.md5(s.encode()).hexdigest()`. -/
def md5Hex (s : String) : String :=
  let st := (chunks64 (md5Pad (strBytes s))).foldl md5Block md5Init
  String.mk (wordLEHex st.1 ++ wordLEHex st.2.1 ++ wordLEHex st.2.2.1
    ++ wordLEHex st.2.2.2)

/-- Python `hashlib.md5(filename.encode()).hexdigest()[:8]`
(src/core/analytics.py, line 274). -/
def md5Hex8 (s : String) : String := String.mk ((md5Hex s).data.take 8)

/-- Python regex class `\s` on the ASCII range. -/
def isPySpace (c : Char) : Bool :=
  c == ' ' || c == '\t' || c == '\n' || c == '\r' || c == '\x0b' || c == '\x0c'

/-- A match of `[Cc]hunk\s*(\d+)` anchored at the head of the character list:
the literal word, then greedily skipped whitespace, then at least one digit;
the captured group is the maximal digit run. -/
def chunkDigitsAt (cs : List Char) : Option (List Char) :=
  match cs with
  | c0 :: c1 :: c2 :: c3 :: c4 :: rest =>
    if (c0 == 'C' || c0 == 'c') && c1 == 'h' && c2 == 'u' && c3 == 'n'
        && c4 == 'k' then
      let digits := (rest.dropWhile isPySpace).takeWhile Char.isDigit
      if digits.isEmpty then none else some digits
    else none
  | _ => none

/-- Python `re.search(r'[Cc]hunk\s*(\d+)', s)`: the capture of the leftmost
match.  Since `\s` and `\d` are disjoint, a match starting at a given position
exists exactly when the maximal whitespace run after the literal is followed by
a digit, so no further backtracking arises. -/
def searchChunkDigits : List Char → Option (List Char)
  | [] => none
  | c :: cs =>
    match chunkDigitsAt (c :: cs) with
    | some d => some d
    | none => searchChunkDigits cs

/-- The extracted chunk ordinal as a digit string, `"unknown"` when the
pattern does not occur (src/core/analytics.py, lines 268-269). -/
def chunkNumOf (source_reference : String) : String :=
  match searchChunkDigits source_reference.data with
  | some ds => String.mk ds
  | none => "unknown"

/-- `extract_chunk_id_from_reference` (src/core/analytics.py, lines 252-278):
with a filename, a short hash of the file name is combined with the extracted
ordinal; without one, the key falls back to the normalized 50-character prefix
of the reference text (spaces to underscores, lowercased). -/
def extract_chunk_id_from_reference (source_reference : String)
    (filename : Option String) : String :=
  let chunk_num := chunkNumOf source_reference
  match filename with
  | some fn => md5Hex8 fn ++ "_chunk_" ++ chunk_num
  | none =>
      String.mk (((source_reference.data.take 50).map
        (fun c => if c == ' ' then '_' else c)).map lowerChar)

/-- C3 (refuting the universal claim): two distinct source reference texts
paired with the same filename can receive the same derived chunk key — both
"Chunk 1 - Introduction" and "Chunk 1 - Summary" extract ordinal 1, so with
the same file both keys are the file hash followed by `_chunk_1`. -/
theorem extract_chunk_id_collision :
    ("Chunk 1 - Introduction" : String) ≠ "Chunk 1 - Summary"
    ∧ extract_chunk_id_from_reference "Chunk 1 - Introduction"
        (some "notes.pdf")
      = extract_chunk_id_from_reference "Chunk 1 - Summary" (some "notes.pdf") := by
  refine ⟨by decide, ?_⟩
  have h1 : chunkNumOf "Chunk 1 - Introduction" = "1" := rfl
  have h2 : chunkNumOf "Chunk 1 - Summary" = "1" := rfl
  show md5Hex8 "notes.pdf" ++ "_chunk_" ++ chunkNumOf "Chunk 1 - Introduction"
    = md5Hex8 "notes.pdf" ++ "_chunk_" ++ chunkNumOf "Chunk 1 - Summary"
  rw [h1, h2]

theorem string_mk_data (s : String) : String.mk s.data = s := by
  cases s
  rfl

/-- C3 (amended): the chunk key derivation is a pure function of the reference
text and filename, and for a fixed filename it never merges two references
whose extracted chunk ordinals differ: distinct ordinal strings give distinct
keys. -/
theorem extract_chunk_id_inj_of_num_ne (r1 r2 fn : String)
    (h : chunkNumOf r1 ≠ chunkNumOf r2) :
    extract_chunk_id_from_reference r1 (some fn)
      ≠ extract_chunk_id_from_reference r2 (some fn) := by
  intro heq
  apply h
  have heq2 : md5Hex8 fn ++ "_chunk_" ++ chunkNumOf r1
      = md5Hex8 fn ++ "_chunk_" ++ chunkNumOf r2 := heq
  have hd := congrArg String.data heq2
  rw [String.data_append, String.data_append, String.data_append,
    String.data_append] at hd
  have hcancel := List.append_cancel_left hd
  calc chunkNumOf r1 = String.mk (chunkNumOf r1).data :=
        (string_mk_data _).symm
    _ = String.mk (chunkNumOf r2).data := congrArg String.mk hcancel
    _ = chunkNumOf r2 := string_mk_data _

/-- Concrete check of the amended C3: "Chunk 1" and "Chunk 2" extract the
ordinals 1 and 2, so under the same filename their keys differ. -/
theorem extract_chunk_id_inj_witness :
    chunkNumOf "Chunk 1" ≠ chunkNumOf "Chunk 2"
    ∧ extract_chunk_id_from_reference "Chunk 1" (some "notes.pdf")
      ≠ extract_chunk_id_from_reference "Chunk 2" (some "notes.pdf") :=
  ⟨by decide, extract_chunk_id_inj_of_num_ne "Chunk 1" "Chunk 2" "notes.pdf"
    (by decide)⟩

/-- A JSON value, the storage medium of `save_state`/`load_state`
(src/core/memory.py): `json.dump` writes the `asdict` image of the dataclass
and `json.load` reads it back; the text layer round-trips the tree exactly, so
the tree is the model of the stored file. -/
inductive Json where
  | null : Json
  | bool (b : Bool) : Json
  | num (q : ℚ) : Json
  | str (s : String) : Json
  | arr (items : List Json) : Json
  | obj (fields : List (String × Json)) : Json

/-- Python `None` / a string, as stored for optional string fields. -/
def encodeOptStr : Option String → Json
  | some s => Json.str s
  | none => Json.null

/-- A `Dict[str, float]` as stored. -/
def encodeRatMap (m : List (String × ℚ)) : Json :=
  Json.obj (m.map (fun p => (p.1, Json.num p.2)))

/-- One `mode_history` entry as stored by `asdict`. -/
def encodeHistEntry (e : HistEntry) : Json :=
  Json.obj [("mode", Json.str e.mode), ("feedback", Json.num e.feedback),
            ("timestamp", Json.str e.timestamp),
            ("session_id", encodeOptStr e.session_id)]

/-- One recent-question record as stored. -/
def encodeChunkQA (qa : ChunkQA) : Json :=
  Json.obj [("question", Json.str qa.question),
            ("correct", Json.bool qa.correct),
            ("timestamp", Json.str qa.timestamp)]

/-- One `chunk_performance` record as stored. -/
def encodeChunkPerf (p : ChunkPerf) : Json :=
  Json.obj [("correct", Json.num p.correct),
            ("incorrect", Json.num p.incorrect),
            ("attempts", Json.num p.attempts),
            ("last_attempt", encodeOptStr p.last_attempt),
            ("source_reference", Json.str p.source_reference),
            ("questions", Json.arr (p.questions.map encodeChunkQA))]

/-- A `Dict[str, str]` as stored. -/
def encodeStrMap (m : List (String × String)) : Json :=
  Json.obj (m.map (fun p => (p.1, Json.str p.2)))

/-- The fields of the `asdict` image of an `RLState`, in dataclass order. -/
def encodeRLStateFields (s : RLState) : List (String × Json) :=
  [("mode_alpha", encodeRatMap s.mode_alpha),
   ("mode_beta", encodeRatMap s.mode_beta),
   ("mode_history", Json.arr (s.mode_history.map encodeHistEntry)),
   ("chunk_performance",
    Json.obj (s.chunk_performance.map (fun p => (p.1, encodeChunkPerf p.2)))),
   ("survey_completed", Json.bool s.survey_completed),
   ("initial_preference", encodeOptStr s.initial_preference),
   ("total_sessions", Json.num (s.total_sessions : ℚ)),
   ("last_updated", encodeOptStr s.last_updated),
   ("file_mapping", encodeStrMap s.file_mapping)]

/-- The `asdict` image of an `RLState`, written by `save_state`
(src/core/memory.py, lines 180-193). -/
def encodeRLState (s : RLState) : Json := Json.obj (encodeRLStateFields s)

/-- `save_state` for the JSON-file backend (src/core/memory.py, lines
154-199, with no username the networked backends are skipped): the stored
document after a successful save. -/
def save_state (s : RLState) : Option Json := some (encodeRLState s)

def decodeStr : Json → Option String
  | Json.str s => some s
  | _ => none

def decodeBool : Json → Option Bool
  | Json.bool b => some b
  | _ => none

def decodeRat : Json → Option ℚ
  | Json.num q => some q
  | _ => none

/-- A stored integer: a JSON number with denominator one. -/
def decodeInt : Json → Option ℤ
  | Json.num q => if q.den = 1 then some q.num else none
  | _ => none

def decodeOptStr : Json → Option (Option String)
  | Json.null => some none
  | Json.str s => some (some s)
  | _ => none

def decodeJsonArr : Json → Option (List Json)
  | Json.arr items => some items
  | _ => none

/-- Decode every element, failing if any element fails. -/
def mapOption (f : α → Option β) : List α → Option (List β)
  | [] => some []
  | a :: as =>
    match f a, mapOption f as with
    | some b, some bs => some (b :: bs)
    | _, _ => none

def decodeRatMap : Json → Option (List (String × ℚ))
  | Json.obj fs =>
      mapOption (fun (p : String × Json) => (decodeRat p.2).map (fun q => (p.1, q))) fs
  | _ => none

def decodeStrMap : Json → Option (List (String × String))
  | Json.obj fs =>
      mapOption (fun (p : String × Json) => (decodeStr p.2).map (fun v => (p.1, v))) fs
  | _ => none

def decodeHistEntry (j : Json) : Option HistEntry :=
  match j with
  | Json.obj fs =>
    (alGet fs "mode").bind fun j1 =>
    (decodeStr j1).bind fun mode =>
    (alGet fs "feedback").bind fun j2 =>
    (decodeRat j2).bind fun feedback =>
    (alGet fs "timestamp").bind fun j3 =>
    (decodeStr j3).bind fun timestamp =>
    (alGet fs "session_id").bind fun j4 =>
    (decodeOptStr j4).map fun session_id =>
    { mode := mode, feedback := feedback, timestamp := timestamp,
      session_id := session_id }
  | _ => none

def decodeChunkQA (j : Json) : Option ChunkQA :=
  match j with
  | Json.obj fs =>
    (alGet fs "question").bind fun j1 =>
    (decodeStr j1).bind fun question =>
    (alGet fs "correct").bind fun j2 =>
    (decodeBool j2).bind fun correct =>
    (alGet fs "timestamp").bind fun j3 =>
    (decodeStr j3).map fun timestamp =>
    { question := question, correct := correct, timestamp := timestamp }
  | _ => none

def decodeChunkPerf (j : Json) : Option ChunkPerf :=
  match j with
  | Json.obj fs =>
    (alGet fs "correct").bind fun j1 =>
    (decodeInt j1).bind fun correct =>
    (alGet fs "incorrect").bind fun j2 =>
    (decodeInt j2).bind fun incorrect =>
    (alGet fs "attempts").bind fun j3 =>
    (decodeInt j3).bind fun attempts =>
    (alGet fs "last_attempt").bind fun j4 =>
    (decodeOptStr j4).bind fun last_attempt =>
    (alGet fs "source_reference").bind fun j5 =>
    (decodeStr j5).bind fun source_reference =>
    (alGet fs "questions").bind fun j6 =>
    (decodeJsonArr j6).bind fun qjs =>
    (mapOption decodeChunkQA qjs).map fun questions =>
    { correct := correct, incorrect := incorrect, attempts := attempts,
      last_attempt := last_attempt, source_reference := source_reference,
      questions := questions }
  | _ => none

/-- Reconstruction of the `RLState` dataclass from the parsed document,
modelling `RLState(**data)` on well-typed data (src/core/memory.py, line 136);
ill-typed data makes it fail, which the source catches as `TypeError`. -/
def decodeRLState (j : Json) : Option RLState :=
  match j with
  | Json.obj fs =>
    (alGet fs "mode_alpha").bind fun j1 =>
    (decodeRatMap j1).bind fun mode_alpha =>
    (alGet fs "mode_beta").bind fun j2 =>
    (decodeRatMap j2).bind fun mode_beta =>
    (alGet fs "mode_history").bind fun j3 =>
    (decodeJsonArr j3).bind fun hjs =>
    (mapOption decodeHistEntry hjs).bind fun mode_history =>
    (alGet fs "chunk_performance").bind fun j4 =>
    (match j4 with
     | Json.obj gs =>
         mapOption (fun (p : String × Json) => (decodeChunkPerf p.2).map (fun c => (p.1, c))) gs
     | _ => none).bind fun chunk_performance =>
    (alGet fs "survey_completed").bind fun j5 =>
    (decodeBool j5).bind fun survey_completed =>
    (alGet fs "initial_preference").bind fun j6 =>
    (decodeOptStr j6).bind fun initial_preference =>
    (alGet fs "total_sessions").bind fun j7 =>
    (decodeInt j7).bind fun total_sessions =>
    (alGet fs "last_updated").bind fun j8 =>
    (decodeOptStr j8).bind fun last_updated =>
    (alGet fs "file_mapping").bind fun j9 =>
    (decodeStrMap j9).map fun file_mapping =>
    { mode_alpha := mode_alpha, mode_beta := mode_beta,
      mode_history := mode_history, chunk_performance := chunk_performance,
      survey_completed := survey_completed,
      initial_preference := initial_preference,
      total_sessions := total_sessions, last_updated := last_updated,
      file_mapping := file_mapping }
  | _ => none

/-- The effect of one `if mode not in data.get(field, {}):
data.setdefault(field, {})[mode] = 1.0` fixup (src/core/memory.py, lines
122-126).  A present non-dict field raises in the source and is caught by the
corrupted-state handler; here it is left unchanged and the decoder fails on
it, reaching the same default state. -/
def ensureModeEntry (fs : List (String × Json)) (field mode : String) :
    List (String × Json) :=
  match alGet fs field with
  | some (Json.obj inner) =>
      if alHas inner mode then fs
      else alSet fs field (Json.obj (alSet inner mode (Json.num 1)))
  | some _ => fs
  | none => alSet fs field (Json.obj [(mode, Json.num 1)])

/-- The effect of `if field not in data: data[field] = {}`
(src/core/memory.py, lines 129-134). -/
def ensureKey (fs : List (String × Json)) (field : String) :
    List (String × Json) :=
  if alHas fs field then fs else alSet fs field (Json.obj [])

/-- The load-time fixups applied to the parsed document before dataclass
construction (src/core/memory.py, lines 120-134). -/
def applyLoadFixups (j : Json) : Json :=
  match j with
  | Json.obj fs =>
    let fs1 := ensureModeEntry (ensureModeEntry fs "mode_alpha" "quiz")
      "mode_beta" "quiz"
    let fs2 := ensureModeEntry (ensureModeEntry fs1 "mode_alpha" "flashcard")
      "mode_beta" "flashcard"
    let fs3 := ensureModeEntry (ensureModeEntry fs2 "mode_alpha" "interactive")
      "mode_beta" "interactive"
    Json.obj (ensureKey (ensureKey fs3 "chunk_performance") "file_mapping")
  | other => other

/-- `load_state` for the JSON-file backend (src/core/memory.py, lines
44-151, with no username): a missing file yields the default state, otherwise
the parsed document is fixed up and the dataclass rebuilt, with any
decoding failure replaced by the default state (corrupted-state branch,
lines 137-151). -/
def load_state (stored : Option Json) : RLState :=
  match stored with
  | none => defaultRLState
  | some j => (decodeRLState (applyLoadFixups j)).getD defaultRLState

theorem alGet_cons (k k' : String) (v : α) (rest : List (String × α)) :
    alGet ((k, v) :: rest) k' = if (k == k') = true then some v
      else alGet rest k' := by
  simp only [alGet, List.find?]
  by_cases h : (k == k') = true <;> simp [h]

theorem decodeOptStr_encode (o : Option String) :
    decodeOptStr (encodeOptStr o) = some o := by
  cases o <;> rfl

theorem decodeInt_encode (n : ℤ) : decodeInt (Json.num (n : ℚ)) = some n := by
  simp [decodeInt, Rat.den_intCast, Rat.num_intCast]

theorem mapOption_roundtrip (f : α → Option β) (g : β → α)
    (h : ∀ b, f (g b) = some b) (l : List β) :
    mapOption f (l.map g) = some l := by
  induction l with
  | nil => rfl
  | cons b bs ih => simp [mapOption, h, ih]

theorem decodeRatMap_encode (m : List (String × ℚ)) :
    decodeRatMap (encodeRatMap m) = some m := by
  show mapOption
      (fun (p : String × Json) => (decodeRat p.2).map (fun q => (p.1, q)))
      (m.map (fun p => (p.1, Json.num p.2))) = some m
  exact mapOption_roundtrip
    (fun (p : String × Json) => (decodeRat p.2).map (fun q => (p.1, q)))
    (fun (p : String × ℚ) => (p.1, Json.num p.2)) (fun b => rfl) m

theorem decodeStrMap_encode (m : List (String × String)) :
    decodeStrMap (encodeStrMap m) = some m := by
  show mapOption
      (fun (p : String × Json) => (decodeStr p.2).map (fun v => (p.1, v)))
      (m.map (fun p => (p.1, Json.str p.2))) = some m
  exact mapOption_roundtrip
    (fun (p : String × Json) => (decodeStr p.2).map (fun v => (p.1, v)))
    (fun (p : String × String) => (p.1, Json.str p.2)) (fun b => rfl) m

theorem decodeHistEntry_encode (e : HistEntry) :
    decodeHistEntry (encodeHistEntry e) = some e := by
  rcases e with ⟨m, f, t, sid⟩
  cases sid <;> rfl

theorem decodeChunkQA_encode (qa : ChunkQA) :
    decodeChunkQA (encodeChunkQA qa) = some qa := by
  rcases qa with ⟨q, c, t⟩
  rfl

theorem decodeChunkPerf_encode (p : ChunkPerf) :
    decodeChunkPerf (encodeChunkPerf p) = some p := by
  rcases p with ⟨c, ic, att, la, sr, qs⟩
  have hqs := mapOption_roundtrip decodeChunkQA encodeChunkQA
    decodeChunkQA_encode qs
  simp [decodeChunkPerf, encodeChunkPerf, alGet_cons, decodeInt_encode,
    decodeOptStr_encode, decodeStr, decodeJsonArr, hqs]

theorem decodeRLState_encode (s : RLState) :
    decodeRLState (encodeRLState s) = some s := by
  rcases s with ⟨ma, mb, mh, cp, sc, ip, ts, lu, fm⟩
  have h3 := mapOption_roundtrip decodeHistEntry encodeHistEntry
    decodeHistEntry_encode mh
  have h4 := mapOption_roundtrip
    (fun (p : String × Json) => (decodeChunkPerf p.2).map (fun c => (p.1, c)))
    (fun (p : String × ChunkPerf) => (p.1, encodeChunkPerf p.2))
    (fun p => by simp [decodeChunkPerf_encode]) cp
  simp [decodeRLState, encodeRLState, encodeRLStateFields, alGet_cons,
    decodeRatMap_encode, decodeStrMap_encode, decodeOptStr_encode,
    decodeInt_encode, decodeJsonArr, decodeBool, h3, h4]

theorem alHas_map_snd (f : α → β) (m : List (String × α)) (k : String) :
    alHas (m.map (fun p => (p.1, f p.2))) k = alHas m k := by
  induction m with
  | nil => rfl
  | cons p ps ih => simp [alHas, List.any] at ih ⊢; rw [ih]

theorem ensureModeEntry_noop (fs : List (String × Json)) (field mode : String)
    (inner : List (String × Json)) (hget : alGet fs field = some (Json.obj inner))
    (hhas : alHas inner mode = true) :
    ensureModeEntry fs field mode = fs := by
  unfold ensureModeEntry
  rw [hget]
  simp [hhas]

theorem ensureKey_noop (fs : List (String × Json)) (field : String)
    (hhas : alHas fs field = true) : ensureKey fs field = fs := by
  unfold ensureKey
  rw [hhas]
  simp

theorem applyLoadFixups_encode (s : RLState)
    (h : ∀ m ∈ knownModes, alHas s.mode_alpha m = true
      ∧ alHas s.mode_beta m = true) :
    applyLoadFixups (encodeRLState s) = encodeRLState s := by
  have hq := h "quiz" (by decide)
  have hf := h "flashcard" (by decide)
  have hi := h "interactive" (by decide)
  have hgeta : alGet (encodeRLStateFields s) "mode_alpha"
      = some (Json.obj (s.mode_alpha.map (fun p => (p.1, Json.num p.2)))) := rfl
  have hgetb : alGet (encodeRLStateFields s) "mode_beta"
      = some (Json.obj (s.mode_beta.map (fun p => (p.1, Json.num p.2)))) := rfl
  have ea : ∀ m, alHas s.mode_alpha m = true →
      ensureModeEntry (encodeRLStateFields s) "mode_alpha" m
        = encodeRLStateFields s := by
    intro m hm
    exact ensureModeEntry_noop _ _ _ _ hgeta (by rw [alHas_map_snd]; exact hm)
  have eb : ∀ m, alHas s.mode_beta m = true →
      ensureModeEntry (encodeRLStateFields s) "mode_beta" m
        = encodeRLStateFields s := by
    intro m hm
    exact ensureModeEntry_noop _ _ _ _ hgetb (by rw [alHas_map_snd]; exact hm)
  have hkc : alHas (encodeRLStateFields s) "chunk_performance" = true := rfl
  have hkf : alHas (encodeRLStateFields s) "file_mapping" = true := rfl
  show Json.obj _ = Json.obj (encodeRLStateFields s)
  rw [ea "quiz" hq.1, eb "quiz" hq.2, ea "flashcard" hf.1, eb "flashcard" hf.2,
    ea "interactive" hi.1, eb "interactive" hi.2, ensureKey_noop _ _ hkc,
    ensureKey_noop _ _ hkf]

/-- C9: saving a well-formed bandit state (entries for all three modes) and
loading it back yields a state equal to the saved one, field for field:
`mode_success`/`mode_failure` parameters, interaction log, chunk statistics,
survey flags, session count, timestamps and file registry all survive the
round trip. -/
theorem save_load_roundtrip (s : RLState)
    (h : ∀ m ∈ knownModes, alHas s.mode_alpha m = true
      ∧ alHas s.mode_beta m = true) :
    load_state (save_state s) = s
    ∧ (load_state (save_state s)).mode_alpha = s.mode_alpha
    ∧ (load_state (save_state s)).mode_beta = s.mode_beta
    ∧ (load_state (save_state s)).mode_history = s.mode_history
    ∧ (load_state (save_state s)).chunk_performance = s.chunk_performance
    ∧ (load_state (save_state s)).survey_completed = s.survey_completed
    ∧ (load_state (save_state s)).initial_preference = s.initial_preference
    ∧ (load_state (save_state s)).total_sessions = s.total_sessions
    ∧ (load_state (save_state s)).last_updated = s.last_updated
    ∧ (load_state (save_state s)).file_mapping = s.file_mapping := by
  have hfull : load_state (save_state s) = s := by
    show (decodeRLState (applyLoadFixups (encodeRLState s))).getD defaultRLState
      = s
    rw [applyLoadFixups_encode s h, decodeRLState_encode]
    rfl
  exact ⟨hfull, by rw [hfull], by rw [hfull], by rw [hfull], by rw [hfull],
    by rw [hfull], by rw [hfull], by rw [hfull], by rw [hfull], by rw [hfull]⟩

/-- A small populated well-formed state for the concrete C9 check. -/
def sampleState : RLState :=
  { mode_alpha := [("quiz", 2), ("flashcard", 1), ("interactive", 3/2)]
    mode_beta := [("quiz", 1), ("flashcard", 3), ("interactive", 1)]
    mode_history :=
      [{ mode := "quiz", feedback := 1, timestamp := "t1", session_id := some "s" },
       { mode := "flashcard", feedback := 0, timestamp := "t2", session_id := none }]
    chunk_performance :=
      [("abc_chunk_1",
        { correct := 2, incorrect := 1, attempts := 3,
          last_attempt := some "t2", source_reference := "Chunk 1 - Intro",
          questions := [{ question := "Q1", correct := true, timestamp := "t1" }] })]
    survey_completed := true
    initial_preference := some "quiz"
    total_sessions := 4
    last_updated := some "t2"
    file_mapping := [("abc", "notes.pdf")] }

/-- Concrete check of C9: the sample state survives the save/load round trip
unchanged. -/
theorem save_load_roundtrip_witness :
    load_state (save_state sampleState) = sampleState :=
  (save_load_roundtrip sampleState (by decide)).1

end StudyPlatform
